import Mathlib

/-!
Shallow embedding of the odh-dashboard frontend logic under verification:

* `src/frontend/src/concepts/pipelines/content/configurePipelinesServer/utils.ts`
  (secret creation, pipeline-server spec assembly, object-storage validation);
* `src/frontend/src/pages/clusterSettings/ClusterSettings.tsx`
  (save-button gating and the save handler);
* `src/frontend/src/api/k8s/projects.ts` (`createProject`, `updateProject`).

JavaScript promises are modelled by explicit `Except` outcomes supplied by an
environment record (one outcome per external call), and the calls a flow issues
are collected in an explicit trace list.  Machine-level JS quirks that the
claims depend on are modelled explicitly: string truthiness (`||` on strings),
optional chaining, the `TypeError` raised by a property access on `undefined`,
and the JS regex classes `\w` and `.` (the latter excludes line terminators).
-/

/-- Errors of the JS runtime as the flows distinguish them: a `TypeError`
raised by the runtime, an axios (network) error, and a plain `Error` with a
message. -/
inductive JsError where
  | typeError
  | axiosError (msg : String)
  | error (msg : String)
deriving DecidableEq, Repr

/-- `true` exactly on resolved (`ok`) outcomes; a rejected promise is `error`. -/
def exIsOk : Except ε α → Bool
  | .ok _ => true
  | .error _ => false

/-- JS `a || b` on strings: the empty string is falsy. -/
def jsOrString (a b : String) : String :=
  if a = "" then b else a

/-- JS `a || b` where `a : string | undefined`: `undefined` and `""` are falsy. -/
def jsOrOptString (a : Option String) (b : String) : String :=
  jsOrString (a.getD "") b

/-- JS truthiness of a string (`!!s`): nonempty. -/
def jsTruthyStr (s : String) : Bool :=
  !(s == "")

/-- JS truthiness of a `string | undefined` value. -/
def jsTruthyOptStr (o : Option String) : Bool :=
  jsTruthyStr (o.getD "")

/-- An entry of the env-variable-shaped form data (`EnvVariableDataEntry` in
`pages/projects/types`): a key/value pair of strings. -/
structure EnvVariableDataEntry where
  key : String
  value : String
deriving DecidableEq, Repr

/-- Modelled from the spec: `dataEntryToRecord` (from `utilities/dataEntryToRecord`,
not under `src/`) "build[s] a record from the key/value list"; a JS object built
by spreading entry after entry, so a later entry with the same key overrides an
earlier one (last wins) and a missing key reads as `undefined`.  The inline
`reduce` with object spread in `createDatabaseSecret` (utils.ts lines 35-38)
builds its record with the same last-wins semantics and is modelled by this
same function. -/
def dataEntryToRecord (entries : List EnvVariableDataEntry) : String → Option String :=
  fun k => (entries.reverse.find? (fun e => e.key == k)).map (fun e => e.value)

/-- Modelled from the spec: the fixed key under which the external database
password is stored (`ExternalDatabaseSecret.KEY` in
`configurePipelinesServer/const`, not under `src/`). -/
def ExternalDatabaseSecret.KEY : String := "db-password"

/-- Modelled from the spec: the fixed name of the external database secret
(`ExternalDatabaseSecret.NAME` in `configurePipelinesServer/const`, not under
`src/`). -/
def ExternalDatabaseSecret.NAME : String := "pipelines-db-password"

/-- Modelled from the spec: the fixed name of the object-storage secret
(`DSPA_SECRET_NAME` in `configurePipelinesServer/const`, not under `src/`). -/
def DSPA_SECRET_NAME : String := "dashboard-dspa-secret"

/-- Modelled from the spec: the `AwsKeys` enum values
(`pages/projects/dataConnections/const`, not under `src/`).  The values of
`S3_ENDPOINT` and `S3_BUCKET` are fixed by `utils.ts` itself, which reads the
record properties `AWS_S3_ENDPOINT` and `AWS_S3_BUCKET` directly. -/
def AwsKeys.ACCESS_KEY_ID : String := "AWS_ACCESS_KEY_ID"

/-- Modelled from the spec: see `AwsKeys.ACCESS_KEY_ID`. -/
def AwsKeys.SECRET_ACCESS_KEY : String := "AWS_SECRET_ACCESS_KEY"

/-- Modelled from the spec: see `AwsKeys.ACCESS_KEY_ID`. -/
def AwsKeys.S3_ENDPOINT : String := "AWS_S3_ENDPOINT"

/-- Modelled from the spec: see `AwsKeys.ACCESS_KEY_ID`. -/
def AwsKeys.S3_BUCKET : String := "AWS_S3_BUCKET"

/-- Modelled from the spec: see `AwsKeys.ACCESS_KEY_ID`. -/
def AwsKeys.DEFAULT_REGION : String := "AWS_DEFAULT_REGION"

/-- Modelled from the spec: the `DatabaseConnectionKeys` enum
(`configurePipelinesServer/const`, not under `src/`): host, port, username,
password and database-name field keys. -/
def DatabaseConnectionKeys.HOST : String := "Host"

/-- Modelled from the spec: see `DatabaseConnectionKeys.HOST`. -/
def DatabaseConnectionKeys.PORT : String := "Port"

/-- Modelled from the spec: see `DatabaseConnectionKeys.HOST`. -/
def DatabaseConnectionKeys.USERNAME : String := "Username"

/-- Modelled from the spec: see `DatabaseConnectionKeys.HOST`. -/
def DatabaseConnectionKeys.PASSWORD : String := "Password"

/-- Modelled from the spec: see `DatabaseConnectionKeys.HOST`. -/
def DatabaseConnectionKeys.DATABASE : String := "Database"

/-- A row of the static AWS field-definition table: key, human label, and
whether the field is required. -/
structure FieldOptions where
  key : String
  label : String
  isRequired : Bool
deriving DecidableEq, Repr

/-- Modelled from the spec: the static `PIPELINE_AWS_FIELDS` table
(`pages/projects/dataConnections/const`, not under `src/`): "a static
field-definition table" marking the access key, secret key, endpoint and
bucket as required (the region is optional). -/
def PIPELINE_AWS_FIELDS : List FieldOptions :=
  [{ key := AwsKeys.ACCESS_KEY_ID, label := "Access key", isRequired := true },
   { key := AwsKeys.SECRET_ACCESS_KEY, label := "Secret key", isRequired := true },
   { key := AwsKeys.S3_ENDPOINT, label := "Endpoint", isRequired := true },
   { key := AwsKeys.S3_BUCKET, label := "Bucket", isRequired := true },
   { key := AwsKeys.DEFAULT_REGION, label := "Region", isRequired := false }]

/-- `PipelineServerConfigType['database']`: the database part of the form. -/
structure DatabaseConfig where
  useDefault : Bool
  value : List EnvVariableDataEntry
deriving DecidableEq, Repr

/-- `PipelineServerConfigType['objectStorage']`: the object-storage part. -/
structure ObjectStorageConfig where
  newValue : List EnvVariableDataEntry
deriving DecidableEq, Repr

/-- The pipeline-server configuration form state. -/
structure PipelineServerConfigType where
  database : DatabaseConfig
  objectStorage : ObjectStorageConfig
deriving DecidableEq, Repr

/-- Modelled from the spec: the payload `assembleSecret(namespace, data, type,
name)` produces (§6, external collaborator consumed through its signature).
Data values are `Option String` because `createDatabaseSecret` stores
`databaseRecord[PASSWORD]`, which may be `undefined`. -/
structure SecretSpec where
  projectName : String
  data : List (String × Option String)
  type : String
  name : String
deriving DecidableEq, Repr

/-- Modelled from the spec: `assembleSecret` builds the secret payload from its
four arguments. -/
def assembleSecret (projectName : String) (data : List (String × Option String))
    (type : String) (name : String) : SecretSpec :=
  { projectName, data, type, name }

/-- Metadata of a cluster resource response (`metadata.name`). -/
structure K8sMeta where
  name : String
deriving DecidableEq, Repr

/-- The response of `createSecret`: a resource with `metadata.name`. -/
structure K8sSecret where
  metadata : K8sMeta
deriving DecidableEq, Repr

/-- Which of the two secret-creating helpers issued a call. -/
inductive SecretTarget where
  | db
  | os
deriving DecidableEq, Repr

/-- One issued `createSecret(assembledSecret, { dryRun })` call. -/
structure SecretCall where
  target : SecretTarget
  secret : SecretSpec
  dryRun : Bool
deriving DecidableEq, Repr

/-- Environment for the secrets flow: the outcome the external `createSecret`
collaborator gives to each payload/dry-run combination. -/
structure SecretsEnv where
  createSecret : SecretSpec → Bool → Except JsError K8sSecret

/-- The result of `createDatabaseSecret` on success: `{key, name}`. -/
structure DatabaseSecretRef where
  key : String
  name : String
deriving DecidableEq, Repr

/-- The result of `createObjectStorageSecret` on success: `{secretName}`. -/
structure ObjectStorageSecretRef where
  secretName : String
deriving DecidableEq, Repr

/-- `SecretsResponse` of utils.ts: the database secret reference (or
`undefined`) and the object-storage secret reference. -/
abbrev SecretsResponse := Option DatabaseSecretRef × ObjectStorageSecretRef

/-- The `assembledSecret` local of `createDatabaseSecret` (utils.ts lines
39-46): the password of the database record stored under the fixed key. -/
def databaseAssembledSecret (databaseConfig : DatabaseConfig) (projectName : String) :
    SecretSpec :=
  assembleSecret projectName
    [(ExternalDatabaseSecret.KEY,
      dataEntryToRecord databaseConfig.value DatabaseConnectionKeys.PASSWORD)]
    "generic" ExternalDatabaseSecret.NAME

/-- The `assembledSecret` local of `createObjectStorageSecret` (utils.ts lines
65-73): access key id and secret access key, defaulting to `''` when absent. -/
def objectStorageAssembledSecret (objectStorageConfig : ObjectStorageConfig)
    (projectName : String) : SecretSpec :=
  assembleSecret projectName
    [(AwsKeys.ACCESS_KEY_ID,
      some ((dataEntryToRecord objectStorageConfig.newValue AwsKeys.ACCESS_KEY_ID).getD "")),
     (AwsKeys.SECRET_ACCESS_KEY,
      some ((dataEntryToRecord objectStorageConfig.newValue AwsKeys.SECRET_ACCESS_KEY).getD ""))]
    "generic" DSPA_SECRET_NAME

/-- `createDatabaseSecret` (utils.ts lines 22-55): when the config does not use
the default database, assemble the password secret and create it (respecting
`dryRun`), mapping the response to `{key, name}`; otherwise resolve `undefined`
without issuing any call.  The returned list is the trace of issued
`createSecret` calls. -/
def createDatabaseSecret (env : SecretsEnv) (databaseConfig : DatabaseConfig)
    (projectName : String) (dryRun : Bool) :
    Except JsError (Option DatabaseSecretRef) × List SecretCall :=
  if !databaseConfig.useDefault then
    let assembledSecret := databaseAssembledSecret databaseConfig projectName
    ((env.createSecret assembledSecret dryRun).map fun secret =>
        some { key := ExternalDatabaseSecret.KEY, name := secret.metadata.name },
     [{ target := .db, secret := assembledSecret, dryRun }])
  else
    (.ok none, [])

/-- `createObjectStorageSecret` (utils.ts lines 57-78): assemble the credentials
secret and create it (respecting `dryRun`), mapping the response to
`{secretName}`. -/
def createObjectStorageSecret (env : SecretsEnv) (objectStorageConfig : ObjectStorageConfig)
    (projectName : String) (dryRun : Bool) :
    Except JsError ObjectStorageSecretRef × List SecretCall :=
  let assembledSecret := objectStorageAssembledSecret objectStorageConfig projectName
  ((env.createSecret assembledSecret dryRun).map fun secret =>
      { secretName := secret.metadata.name },
   [{ target := .os, secret := assembledSecret, dryRun }])

/-- `Promise.all` on a pair of already-issued promises: resolves with the pair
when both resolve; rejects with the error of the first promise to reject.  When
both reject, which error wins depends on settle order, captured by
`leftFirst`. -/
def promiseAll2 (leftFirst : Bool) : Except ε α → Except ε β → Except ε (α × β)
  | .ok a, .ok b => .ok (a, b)
  | .error e, .ok _ => .error e
  | .ok _, .error e => .error e
  | .error e₁, .error e₂ => .error (if leftFirst then e₁ else e₂)

/-- `createSecrets` (utils.ts lines 80-95): issue both creations with
`dryRun = true` concurrently; only when both resolve, issue both again with
`dryRun = false` and settle with that pair; any rejection propagates.
`sched1`/`sched2` record which of two concurrently rejecting promises settles
first in each phase (irrelevant unless both reject).  The second component is
the trace of all issued `createSecret` calls, in issue order. -/
def createSecrets (env : SecretsEnv) (sched1 sched2 : Bool)
    (config : PipelineServerConfigType) (projectName : String) :
    Except JsError SecretsResponse × List SecretCall :=
  let dbDry := createDatabaseSecret env config.database projectName true
  let osDry := createObjectStorageSecret env config.objectStorage projectName true
  match promiseAll2 sched1 dbDry.1 osDry.1 with
  | .error e => (.error e, dbDry.2 ++ osDry.2)
  | .ok _ =>
      let dbReal := createDatabaseSecret env config.database projectName false
      let osReal := createObjectStorageSecret env config.objectStorage projectName false
      (promiseAll2 sched2 dbReal.1 osReal.1, dbDry.2 ++ osDry.2 ++ dbReal.2 ++ osReal.2)

/-- JS `\w`: ASCII letters, digits and underscore. -/
def isWordChar (c : Char) : Bool :=
  c.isAlphanum || c == '_'

/-- JS line terminators, which `.` does not match: LF, CR, LS, PS. -/
def isLineTerminator (c : Char) : Bool :=
  c == '\n' || c == '\r' || c == '\u2028' || c == '\u2029'

/-- `endpoint.match(/^(?:(\w+):\/\/)?(.*)/)` of utils.ts line 104, which always
matches: when the string starts with a nonempty `\w` run followed by `://`, the
run is the scheme capture and `(.*)` greedily takes the rest of the line after
`://`; otherwise the optional group is skipped and `(.*)` takes the leading
line.  (`\w+` is greedy and `:` is not a word character, so no backtracking
into the run can succeed.) -/
def matchEndpoint (s : String) : Option String × String :=
  let cs := s.data
  let w := cs.takeWhile isWordChar
  let rest := cs.drop w.length
  if w ≠ [] ∧ rest.take 3 = [':', '/', '/'] then
    (some (String.mk w), String.mk ((rest.drop 3).takeWhile (fun c => !isLineTerminator c)))
  else
    (none, String.mk (cs.takeWhile (fun c => !isLineTerminator c)))

/-- `host.replace(/\/$/, '')`: drop one trailing `/` if present (without the
`m` flag, `$` matches only at the very end of the string). -/
def stripTrailingSlash (s : String) : String :=
  match s.data.getLast? with
  | some '/' => String.mk s.data.dropLast
  | _ => s

/-- `s3CredentialsSecret` of the spec: fixed key names plus the secret name. -/
structure S3CredentialsSecretRef where
  accessKey : String
  secretKey : String
  secretName : String
deriving DecidableEq, Repr

/-- `objectStorage.externalStorage` of the spec. -/
structure ExternalStorage where
  host : String
  scheme : String
  bucket : String
  region : String
  s3CredentialsSecret : S3CredentialsSecretRef
deriving DecidableEq, Repr

/-- The `objectStorage` block of the spec. -/
structure ObjectStorageSpec where
  externalStorage : ExternalStorage
deriving DecidableEq, Repr

/-- `externalDB.passwordSecret` of the spec. -/
structure PasswordSecretRef where
  key : String
  name : String
deriving DecidableEq, Repr

/-- `database.externalDB` of the spec; connection fields come from record
lookups and may be `undefined`. -/
structure ExternalDB where
  host : Option String
  passwordSecret : PasswordSecretRef
  pipelineDBName : Option String
  port : Option String
  username : Option String
deriving DecidableEq, Repr

/-- The `database` block of the spec. -/
structure DatabaseSpec where
  externalDB : ExternalDB
deriving DecidableEq, Repr

/-- `DSPipelineKind['spec']` as assembled by utils.ts: `dspVersion`, the object
storage block, and an optional database block. -/
structure DSPipelineSpec where
  dspVersion : String
  objectStorage : ObjectStorageSpec
  database : Option DatabaseSpec
deriving DecidableEq, Repr

/-- `createDSPipelineResourceSpec` (utils.ts lines 97-136).  When the AWS
record has no `AWS_S3_ENDPOINT` value, the JS destructuring
`const [, scheme, host] = endpoint?.match(...) ?? []` leaves `host` as
`undefined`, and `externalStorageHost.replace(/\/$/, '')` on line 110 raises a
`TypeError`; that exception is the `.error .typeError` branch.  Otherwise the
spec literal of lines 106-135 is produced. -/
def createDSPipelineResourceSpec (config : PipelineServerConfigType)
    (resp : SecretsResponse) : Except JsError DSPipelineSpec :=
  let databaseRecord := dataEntryToRecord config.database.value
  let awsRecord := dataEntryToRecord config.objectStorage.newValue
  match (awsRecord AwsKeys.S3_ENDPOINT).map matchEndpoint with
  | none => .error .typeError
  | some (externalStorageScheme, externalStorageHost) =>
      .ok
        { dspVersion := "v2"
          objectStorage :=
            { externalStorage :=
                { host := jsOrString (stripTrailingSlash externalStorageHost) ""
                  scheme := jsOrOptString externalStorageScheme "https"
                  bucket := jsOrOptString (awsRecord AwsKeys.S3_BUCKET) ""
                  region := "us-east-2"
                  s3CredentialsSecret :=
                    { accessKey := AwsKeys.ACCESS_KEY_ID
                      secretKey := AwsKeys.SECRET_ACCESS_KEY
                      secretName := resp.2.secretName } } }
          database := resp.1.map fun databaseSecret =>
            { externalDB :=
                { host := databaseRecord DatabaseConnectionKeys.HOST
                  passwordSecret := { key := databaseSecret.key, name := databaseSecret.name }
                  pipelineDBName := databaseRecord DatabaseConnectionKeys.DATABASE
                  port := databaseRecord DatabaseConnectionKeys.PORT
                  username := databaseRecord DatabaseConnectionKeys.USERNAME } } }

/-- `configureDSPipelineResourceSpec` (utils.ts lines 138-144): create the
secrets, then assemble the spec from the secrets response. -/
def configureDSPipelineResourceSpec (env : SecretsEnv) (sched1 sched2 : Bool)
    (config : PipelineServerConfigType) (projectName : String) :
    Except JsError DSPipelineSpec × List SecretCall :=
  let r := createSecrets env sched1 sched2 config projectName
  (match r.1 with
   | .error e => .error e
   | .ok resp => createDSPipelineResourceSpec config resp,
   r.2)

/-- `objectStorageIsValid` (utils.ts lines 146-153): every entry whose key is
among the required keys of `PIPELINE_AWS_FIELDS` must have a nonempty trimmed
value (`!!value.trim()`); other entries are always valid. -/
def objectStorageIsValid (objectStorage : List EnvVariableDataEntry) : Bool :=
  objectStorage.all fun e =>
    if (((PIPELINE_AWS_FIELDS.filter fun field => field.isRequired).map
          fun field => field.key).contains e.key) then
      jsTruthyStr e.value.trim
    else
      true

/-- `getLabelName` (utils.ts lines 155-158): the label of the field with the
given key, or `''` when no field matches. -/
def getLabelName (index : String) : String :=
  match PIPELINE_AWS_FIELDS.find? fun currentField => currentField.key == index with
  | some field => field.label
  | none => ""

/-- `ModelServingPlatformEnabled` (`types`, not under `src/`): which serving
platforms are enabled. -/
structure ModelServingPlatformEnabled where
  kServe : Bool
  modelMesh : Bool
deriving DecidableEq, Repr

/-- The `notebookTolerationSettings` part of the stored cluster settings. -/
structure NotebookTolerationSettings where
  enabled : Bool
  key : String
deriving DecidableEq, Repr

/-- `ClusterSettingsType` (`types`, not under `src/`), as assembled and
compared by `ClusterSettings.tsx`: PVC size, culler timeout, tracking flag,
toleration settings and serving-platform enablement. -/
structure ClusterSettingsType where
  pvcSize : Int
  cullerTimeout : Int
  userTrackingEnabled : Bool
  notebookTolerationSettings : NotebookTolerationSettings
  modelServingPlatformEnabled : ModelServingPlatformEnabled
deriving DecidableEq, Repr

/-- Modelled from the spec: the minimum culler timeout (`MIN_CULLER_TIMEOUT`
in `clusterSettings/const`, not under `src/`); the claims depend only on it
being a fixed bound. -/
def MIN_CULLER_TIMEOUT : Int := 600

/-- The form-side toleration state (`NotebookTolerationFormSettings`): the
stored fields plus an optional inline validation error. -/
structure NotebookTolerationFormSettings where
  enabled : Bool
  key : String
  error : Option String
deriving DecidableEq, Repr

/-- The local React state of `ClusterSettings` that the save path reads:
`saving`, the edited fields, and the platform selections. -/
structure ClusterSettingsFormState where
  saving : Bool
  pvcSize : Int
  cullerTimeout : Int
  userTrackingEnabled : Bool
  notebookTolerationSettings : NotebookTolerationFormSettings
  modelServingEnabledPlatforms : ModelServingPlatformEnabled
deriving DecidableEq, Repr

/-- The `newClusterSettings` object literal built in `handleSaveButtonClicked`
(ClusterSettings.tsx lines 85-94). -/
def newClusterSettings (form : ClusterSettingsFormState) : ClusterSettingsType :=
  { pvcSize := form.pvcSize
    cullerTimeout := form.cullerTimeout
    userTrackingEnabled := form.userTrackingEnabled
    notebookTolerationSettings :=
      { enabled := form.notebookTolerationSettings.enabled
        key := form.notebookTolerationSettings.key }
    modelServingPlatformEnabled := form.modelServingEnabledPlatforms }

/-- `isSettingsChanged` (ClusterSettings.tsx lines 62-82): deep inequality of
the loaded baseline against the object assembled from the edited fields. -/
def isSettingsChanged (clusterSettings : ClusterSettingsType)
    (form : ClusterSettingsFormState) : Bool :=
  decide (clusterSettings ≠ newClusterSettings form)

/-- The `isDisabled` expression of the save button (ClusterSettings.tsx lines
189-195): saving, a zero PVC size (`!pvcSize`), a culler timeout below the
minimum, unchanged settings, or a toleration validation error disable it. -/
def saveButtonDisabled (clusterSettings : ClusterSettingsType)
    (form : ClusterSettingsFormState) : Bool :=
  form.saving || decide (form.pvcSize = 0) ||
    decide (form.cullerTimeout < MIN_CULLER_TIMEOUT) ||
    !isSettingsChanged clusterSettings form ||
    jsTruthyOptStr form.notebookTolerationSettings.error

/-- The response of `updateClusterSettings`: `{success, error?}`. -/
structure UpdateClusterSettingsResponse where
  success : Bool
  error : Option String
deriving DecidableEq, Repr

/-- `handleSaveButtonClicked` (ClusterSettings.tsx lines 84-131), projected to
the observables the claims are about: the list of `updateClusterSettings` calls
issued (at most one, with the assembled settings object) and the resulting
`clusterSettings` baseline state (updated only when the response reports
success; on failure or rejection a danger notification is dispatched and the
baseline is left as loaded).  `updateOutcome` is the collaborator's outcome for
the call, when one is issued. -/
def handleSaveButtonClicked (updateOutcome : Except JsError UpdateClusterSettingsResponse)
    (clusterSettings : ClusterSettingsType) (form : ClusterSettingsFormState) :
    List ClusterSettingsType × ClusterSettingsType :=
  let newSettings := newClusterSettings form
  if clusterSettings = newSettings then
    ([], clusterSettings)
  else if newSettings.pvcSize ≠ 0 ∧ newSettings.cullerTimeout ≥ MIN_CULLER_TIMEOUT then
    match updateOutcome with
    | .ok response =>
        if response.success then
          ([newSettings], newSettings)
        else
          ([newSettings], clusterSettings)
    | .error _ => ([newSettings], clusterSettings)
  else
    ([], clusterSettings)

/-- Metadata of a `ProjectKind` resource.  Annotation and label maps are JS
objects, modelled as functions from keys to optional values. -/
structure ProjectMetadata where
  name : String
  annotations : String → Option String
  labels : String → Option String
  uid : Option String

/-- A `ProjectKind` resource (`k8sTypes`, not under `src/`): modelled with the
common resource fields `createProject`/`updateProject` touch or carry. -/
structure ProjectKind where
  apiVersion : String
  kind : String
  metadata : ProjectMetadata
  status : Option String

/-- The `ProjectRequestKind` resource literal `createProject` submits
(projects.ts lines 69-77). -/
structure ProjectRequestResource where
  apiVersion : String
  kind : String
  name : String
  description : String
  displayName : String
deriving DecidableEq, Repr

/-- The namespace-labeling endpoint's response data: an optional `applied`
flag (`response.data?.applied` may be absent at either level). -/
structure NamespaceResponseData where
  applied : Option Bool
deriving DecidableEq, Repr

/-- An axios response from `/api/namespaces/{name}/{caseId}`. -/
structure NamespaceResponse where
  data : Option NamespaceResponseData
deriving DecidableEq, Repr

/-- Environment for the project flows: the outcome of each external
collaborator, and the k8s display-name translation.
`translateDisplayNameForK8s` (`pages/projects/utils`, not under `src/`) is
modelled from the spec as an arbitrary translation function; no claim depends
on its value. -/
structure ProjectsEnv where
  translateDisplayNameForK8s : String → String
  k8sCreateProjectRequest : ProjectRequestResource → Except JsError ProjectKind
  namespacesEndpoint : String → Except JsError NamespaceResponse
  k8sUpdateResource : ProjectKind → Except JsError ProjectKind

/-- Modelled from the spec: the product name interpolated into user-facing
error messages (`ODH_PRODUCT_NAME` in `utilities/const`, not under `src/`). -/
def ODH_PRODUCT_NAME : String := "Open Data Hub"

/-- Modelled from the spec (§7): `throwErrorFromAxios` (`api/errorUtils`, not
under `src/`) converts an axios failure into a plain `Error` carrying its
message and rethrows any other error unchanged. -/
def throwErrorFromAxios : JsError → JsError
  | .axiosError msg => .error msg
  | e => e

/-- The error message thrown by `createProject` when the namespace labeling was
not applied (projects.ts lines 88-90). -/
def createProjectAdminMessage : String :=
  "Unable to fully create your project. Ask a " ++ ODH_PRODUCT_NAME ++ " admin for assistance."

/-- The `ProjectRequestKind` resource `createProject` submits (projects.ts
lines 64-77): note the source computes `name` from `k8sName` or the translated
display name, and then translates that `name` again for `metadata.name` unless
`k8sName` is given (JS `||`, so an empty `k8sName` is falsy). -/
def createProjectResource (env : ProjectsEnv) (displayName description : String)
    (k8sName : Option String) : ProjectRequestResource :=
  let name := jsOrOptString k8sName (env.translateDisplayNameForK8s displayName)
  { apiVersion := "project.openshift.io/v1"
    kind := "ProjectRequest"
    name := jsOrOptString k8sName (env.translateDisplayNameForK8s name)
    description := description
    displayName := displayName }

/-- `createProject` (projects.ts lines 43-100): create the project request;
on success, call the namespace-labeling endpoint `/api/namespaces/{name}/0`
once; resolve with the project name only when the response carries
`applied = true` (`response.data?.applied ?? false`), otherwise throw the
admin-assistance error; endpoint failures pass through `throwErrorFromAxios`.
The second component is the trace of labeling-endpoint URLs called. -/
def createProject (env : ProjectsEnv) (username displayName description : String)
    (k8sName : Option String) : Except JsError String × List String :=
  let _ := username
  match env.k8sCreateProjectRequest (createProjectResource env displayName description k8sName) with
  | .error e => (.error e, [])
  | .ok project =>
      let projectName := project.metadata.name
      let trace := ["/api/namespaces/" ++ projectName ++ "/0"]
      match env.namespacesEndpoint projectName with
      | .error e => (.error (throwErrorFromAxios e), trace)
      | .ok response =>
          let applied := (response.data.bind fun d => d.applied).getD false
          if applied then
            (.ok projectName, trace)
          else
            (.error (throwErrorFromAxios (.error createProjectAdminMessage)), trace)

/-- The updated resource `updateProject` assembles (projects.ts lines 145-155):
the input project with only the display-name annotation (trimmed) and the
description annotation overridden, via nested object spreads. -/
def updateProjectResource (editProjectData : ProjectKind)
    (displayName description : String) : ProjectKind :=
  { editProjectData with
    metadata :=
      { editProjectData.metadata with
        annotations := fun k =>
          if k = "openshift.io/description" then some description
          else if k = "openshift.io/display-name" then some displayName.trim
          else editProjectData.metadata.annotations k } }

/-- `updateProject` (projects.ts lines 140-161): submit the assembled resource
to `k8sUpdateResource`; the pair returned is (submitted resource, outcome). -/
def updateProject (env : ProjectsEnv) (editProjectData : ProjectKind)
    (displayName description : String) : ProjectKind × Except JsError ProjectKind :=
  let resource := updateProjectResource editProjectData displayName description
  (resource, env.k8sUpdateResource resource)

/-! ### Helper lemmas -/

theorem createSecrets_eq (env : SecretsEnv) (sched1 sched2 : Bool)
    (config : PipelineServerConfigType) (projectName : String) :
    createSecrets env sched1 sched2 config projectName =
      match promiseAll2 sched1 (createDatabaseSecret env config.database projectName true).1
          (createObjectStorageSecret env config.objectStorage projectName true).1 with
      | .error e =>
          (.error e,
           (createDatabaseSecret env config.database projectName true).2 ++
             (createObjectStorageSecret env config.objectStorage projectName true).2)
      | .ok _ =>
          (promiseAll2 sched2 (createDatabaseSecret env config.database projectName false).1
             (createObjectStorageSecret env config.objectStorage projectName false).1,
           (createDatabaseSecret env config.database projectName true).2 ++
             (createObjectStorageSecret env config.objectStorage projectName true).2 ++
             (createDatabaseSecret env config.database projectName false).2 ++
             (createObjectStorageSecret env config.objectStorage projectName false).2) := rfl

theorem createDatabaseSecret_calls_dryRun (env : SecretsEnv) (databaseConfig : DatabaseConfig)
    (projectName : String) (dryRun : Bool) :
    ∀ c ∈ (createDatabaseSecret env databaseConfig projectName dryRun).2, c.dryRun = dryRun := by
  intro c hc
  unfold createDatabaseSecret at hc
  rcases h : databaseConfig.useDefault with _ | _ <;> simp [h] at hc
  rw [hc]

theorem createObjectStorageSecret_calls_dryRun (env : SecretsEnv)
    (objectStorageConfig : ObjectStorageConfig) (projectName : String) (dryRun : Bool) :
    ∀ c ∈ (createObjectStorageSecret env objectStorageConfig projectName dryRun).2,
      c.dryRun = dryRun := by
  intro c hc
  unfold createObjectStorageSecret at hc
  simp at hc
  rw [hc]

theorem exIsOk_false_iff (x : Except ε α) : exIsOk x = false ↔ ∃ e, x = .error e := by
  cases x <;> simp [exIsOk]

theorem promiseAll2_error_of_left (f : Bool) (a : Except ε α) (b : Except ε β)
    (h : exIsOk a = false) : ∃ e, promiseAll2 f a b = .error e := by
  cases a <;> cases b <;> simp_all [exIsOk, promiseAll2]

theorem promiseAll2_error_of_right (f : Bool) (a : Except ε α) (b : Except ε β)
    (h : exIsOk b = false) : ∃ e, promiseAll2 f a b = .error e := by
  cases a <;> cases b <;> simp_all [exIsOk, promiseAll2]

/-! ### C1 -/

/-- C1: In `createSecrets`, if the dry-run creation of either the database
secret or the object-storage secret rejects, no real (non-dry-run) secret
creation call is ever issued: every call in the trace has `dryRun = true`. -/
theorem c1_dry_run_failure_blocks_real_calls (env : SecretsEnv) (sched1 sched2 : Bool)
    (config : PipelineServerConfigType) (projectName : String)
    (h : exIsOk (createDatabaseSecret env config.database projectName true).1 = false ∨
         exIsOk (createObjectStorageSecret env config.objectStorage projectName true).1 = false) :
    ∀ c ∈ (createSecrets env sched1 sched2 config projectName).2, c.dryRun = true := by
  intro c hc
  rw [createSecrets_eq] at hc
  have herr : ∃ e, promiseAll2 sched1 (createDatabaseSecret env config.database projectName true).1
      (createObjectStorageSecret env config.objectStorage projectName true).1 = .error e := by
    rcases h with h | h
    · exact promiseAll2_error_of_left sched1 _ _ h
    · exact promiseAll2_error_of_right sched1 _ _ h
  obtain ⟨e, he⟩ := herr
  rw [he] at hc
  simp only [List.mem_append] at hc
  rcases hc with hc | hc
  · exact createDatabaseSecret_calls_dryRun env config.database projectName true c hc
  · exact createObjectStorageSecret_calls_dryRun env config.objectStorage projectName true c hc

/-- Witness for C1 at a concrete failing environment. -/
theorem c1_dry_run_failure_blocks_real_calls_witness :
    exIsOk (createDatabaseSecret ⟨fun _ _ => .error (.error "boom")⟩ ⟨false, []⟩ "proj" true).1
        = false ∧
    ∀ c ∈ (createSecrets ⟨fun _ _ => .error (.error "boom")⟩ true true
        ⟨⟨false, []⟩, ⟨[]⟩⟩ "proj").2, c.dryRun = true :=
  ⟨by decide,
   c1_dry_run_failure_blocks_real_calls ⟨fun _ _ => .error (.error "boom")⟩ true true
     ⟨⟨false, []⟩, ⟨[]⟩⟩ "proj" (Or.inl (by decide))⟩

/-! ### C2 -/

theorem createDatabaseSecret_useDefault (env : SecretsEnv) (databaseConfig : DatabaseConfig)
    (projectName : String) (dryRun : Bool) (h : databaseConfig.useDefault = true) :
    createDatabaseSecret env databaseConfig projectName dryRun = (.ok none, []) := by
  unfold createDatabaseSecret
  simp [h]

/-- C2: For every config whose database part has `useDefault = true`,
`createDatabaseSecret` resolves with `undefined` without issuing any
secret-creation call, and any spec `createDSPipelineResourceSpec` produces
from a secrets response of `createSecrets` on that config has no `externalDB`
block (its `database` field is absent). -/
theorem c2_use_default_database_creates_no_secret_and_omits_externalDB
    (env : SecretsEnv) (sched1 sched2 : Bool) (config : PipelineServerConfigType)
    (projectName : String) (h : config.database.useDefault = true) :
    (∀ dryRun, createDatabaseSecret env config.database projectName dryRun = (.ok none, [])) ∧
    (∀ resp calls spec,
        createSecrets env sched1 sched2 config projectName = (.ok resp, calls) →
        createDSPipelineResourceSpec config resp = .ok spec →
        spec.database = none) := by
  refine ⟨fun dryRun => createDatabaseSecret_useDefault env config.database projectName dryRun h,
    fun resp calls spec hsec hspec => ?_⟩
  rw [createSecrets_eq, createDatabaseSecret_useDefault env config.database projectName true h,
    createDatabaseSecret_useDefault env config.database projectName false h] at hsec
  have hresp : resp.1 = none := by
    rcases ho : (createObjectStorageSecret env config.objectStorage projectName true).1 with e | b
    · rw [ho] at hsec
      simp [promiseAll2] at hsec
    · rw [ho] at hsec
      rcases hr : (createObjectStorageSecret env config.objectStorage projectName false).1 with e | y
      · rw [hr] at hsec
        simp [promiseAll2] at hsec
      · rw [hr] at hsec
        simp only [promiseAll2, Prod.mk.injEq] at hsec
        have := hsec.1
        cases this_eq : resp with
        | mk r1 r2 =>
            rw [this_eq] at this
            injection this with h2
            rw [← h2]
  unfold createDSPipelineResourceSpec at hspec
  dsimp only [] at hspec
  split at hspec
  · simp at hspec
  · injection hspec with h1
    rw [← h1]
    simp [hresp]

/-- Witness for C2 at a concrete config using the default database. -/
theorem c2_use_default_database_creates_no_secret_and_omits_externalDB_witness :
    createDatabaseSecret ⟨fun s _ => .ok ⟨⟨s.name⟩⟩⟩ ⟨true, []⟩ "proj" true = (.ok none, []) :=
  (c2_use_default_database_creates_no_secret_and_omits_externalDB
    ⟨fun s _ => .ok ⟨⟨s.name⟩⟩⟩ true true ⟨⟨true, []⟩, ⟨[]⟩⟩ "proj" rfl).1 true

/-! ### C3 -/

/-- C3: When both dry-run calls resolve, `createSecrets` resolves with exactly
the pair of results of the second-phase (real) creation calls; and when exactly
one of the four calls rejects, `createSecrets` rejects with that same error. -/
theorem c3_resolves_with_real_results_and_propagates_errors (env : SecretsEnv)
    (sched1 sched2 : Bool) (config : PipelineServerConfigType) (projectName : String) :
    (∀ a b x y,
        (createDatabaseSecret env config.database projectName true).1 = .ok a →
        (createObjectStorageSecret env config.objectStorage projectName true).1 = .ok b →
        (createDatabaseSecret env config.database projectName false).1 = .ok x →
        (createObjectStorageSecret env config.objectStorage projectName false).1 = .ok y →
        (createSecrets env sched1 sched2 config projectName).1 = .ok (x, y)) ∧
    (∀ e b,
        (createDatabaseSecret env config.database projectName true).1 = .error e →
        (createObjectStorageSecret env config.objectStorage projectName true).1 = .ok b →
        (createSecrets env sched1 sched2 config projectName).1 = .error e) ∧
    (∀ a e,
        (createDatabaseSecret env config.database projectName true).1 = .ok a →
        (createObjectStorageSecret env config.objectStorage projectName true).1 = .error e →
        (createSecrets env sched1 sched2 config projectName).1 = .error e) ∧
    (∀ a b e y,
        (createDatabaseSecret env config.database projectName true).1 = .ok a →
        (createObjectStorageSecret env config.objectStorage projectName true).1 = .ok b →
        (createDatabaseSecret env config.database projectName false).1 = .error e →
        (createObjectStorageSecret env config.objectStorage projectName false).1 = .ok y →
        (createSecrets env sched1 sched2 config projectName).1 = .error e) ∧
    (∀ a b x e,
        (createDatabaseSecret env config.database projectName true).1 = .ok a →
        (createObjectStorageSecret env config.objectStorage projectName true).1 = .ok b →
        (createDatabaseSecret env config.database projectName false).1 = .ok x →
        (createObjectStorageSecret env config.objectStorage projectName false).1 = .error e →
        (createSecrets env sched1 sched2 config projectName).1 = .error e) := by
  refine ⟨fun a b x y h1 h2 h3 h4 => ?_, fun e b h1 h2 => ?_, fun a e h1 h2 => ?_,
    fun a b e y h1 h2 h3 h4 => ?_, fun a b x e h1 h2 h3 h4 => ?_⟩ <;>
    rw [createSecrets_eq] <;>
    simp [h1, h2, promiseAll2] <;>
    simp [h3, h4, promiseAll2]

/-- Witness for C3: the success case at an environment that names dry-run and
real responses differently; the resolved pair carries the real names. -/
theorem c3_resolves_with_real_results_and_propagates_errors_witness :
    (createSecrets ⟨fun _ d => .ok ⟨⟨if d then "dry" else "real"⟩⟩⟩ true true
        ⟨⟨false, []⟩, ⟨[]⟩⟩ "proj").1 =
      .ok (some ⟨ExternalDatabaseSecret.KEY, "real"⟩, ⟨"real"⟩) :=
  (c3_resolves_with_real_results_and_propagates_errors
      ⟨fun _ d => .ok ⟨⟨if d then "dry" else "real"⟩⟩⟩ true true
      ⟨⟨false, []⟩, ⟨[]⟩⟩ "proj").1
    (some ⟨ExternalDatabaseSecret.KEY, "dry"⟩) ⟨"dry"⟩
    (some ⟨ExternalDatabaseSecret.KEY, "real"⟩) ⟨"real"⟩ rfl rfl rfl rfl

/-! ### C5 -/

/-- Counterexample to C5 as stated: with no entries at all, every required
field of `PIPELINE_AWS_FIELDS` is missing from the entries (and required fields
exist), yet `objectStorageIsValid` returns `true`, not `false`: the claimed
"missing from entries" direction of the iff fails. -/
theorem c5_counterexample_missing_required_field_still_valid :
    ¬ (objectStorageIsValid [] = false ↔
        ∃ field ∈ PIPELINE_AWS_FIELDS, field.isRequired = true ∧
          ((∀ e ∈ ([] : List EnvVariableDataEntry), e.key ≠ field.key) ∨
           (∃ e ∈ ([] : List EnvVariableDataEntry), e.key = field.key ∧ e.value.trim = ""))) := by
  decide

/-- C5 (amended): `objectStorageIsValid entries` returns `false` iff at least
one entry of `entries` has a key marked `isRequired` in `PIPELINE_AWS_FIELDS`
and a value that is empty after trimming; required fields entirely absent from
`entries` do not make the result `false`, and entries whose keys are not in
the required set never make the result `false`. -/
theorem c5_amended_invalid_iff_blank_required_entry (entries : List EnvVariableDataEntry) :
    objectStorageIsValid entries = false ↔
      ∃ e ∈ entries,
        (((PIPELINE_AWS_FIELDS.filter fun field => field.isRequired).map
            fun field => field.key).contains e.key) = true ∧ e.value.trim = "" := by
  unfold objectStorageIsValid
  rw [← Bool.not_eq_true, List.all_eq_true]
  push_neg
  constructor
  · rintro ⟨e, he, hne⟩
    refine ⟨e, he, ?_⟩
    by_cases hc : (((PIPELINE_AWS_FIELDS.filter fun field => field.isRequired).map
        fun field => field.key).contains e.key) = true
    · refine ⟨hc, ?_⟩
      rw [if_pos hc] at hne
      simpa [jsTruthyStr] using hne
    · rw [if_neg hc] at hne
      exact absurd rfl hne
  · rintro ⟨e, he, hc, hv⟩
    exact ⟨e, he, by rw [if_pos hc]; simp [jsTruthyStr, hv]⟩

/-! ### C6 -/

/-- C6 is a code bug: `createDSPipelineResourceSpec` is not total.  On a config
whose object-storage entries lack an `AWS_S3_ENDPOINT` value, the destructuring
of `?? []` leaves the host `undefined` and line 110 of utils.ts
(`externalStorageHost.replace(/\/$/, '')`) raises a `TypeError` instead of
returning a spec with scheme `'https'` and host `''`. -/
theorem c6_missing_endpoint_raises_type_error :
    createDSPipelineResourceSpec ⟨⟨true, []⟩, ⟨[]⟩⟩ (none, ⟨"sec"⟩) =
      .error .typeError := rfl

/-! ### C4 -/

theorem data_append (a b : String) : (a ++ b).data = a.data ++ b.data := by
  cases a
  cases b
  rfl

theorem takeWhile_append_of_all {α : Type} {p : α → Bool} :
    ∀ (xs ys : List α), (∀ x ∈ xs, p x = true) →
      (xs ++ ys).takeWhile p = xs ++ ys.takeWhile p := by
  intro xs
  induction xs with
  | nil => intro ys h; simp
  | cons a l ih =>
      intro ys h
      have ha : p a = true := h a (List.mem_cons_self a l)
      simp only [List.cons_append, List.takeWhile_cons, ha, if_true]
      rw [ih ys fun x hx => h x (List.mem_cons_of_mem a hx)]

theorem takeWhile_all {α : Type} {p : α → Bool} :
    ∀ (xs : List α), (∀ x ∈ xs, p x = true) → xs.takeWhile p = xs := by
  intro xs
  induction xs with
  | nil => intro h; rfl
  | cons a l ih =>
      intro h
      have ha : p a = true := h a (List.mem_cons_self a l)
      simp only [List.takeWhile_cons, ha, if_true]
      rw [ih fun x hx => h x (List.mem_cons_of_mem a hx)]

/-- The regex match on an endpoint of the shape `scheme://host/`, for a
nonempty all-word-character scheme and a host free of line terminators:
the scheme is captured and `(.*)` takes `host ++ "/"`. -/
theorem matchEndpoint_scheme_host (scheme host : String)
    (h2 : scheme.data ≠ []) (h3 : ∀ c ∈ scheme.data, isWordChar c = true)
    (h4 : ∀ c ∈ host.data, isLineTerminator c = false) :
    matchEndpoint (scheme ++ "://" ++ (host ++ "/")) = (some scheme, host ++ "/") := by
  unfold matchEndpoint
  have hdata : (scheme ++ "://" ++ (host ++ "/")).data
      = scheme.data ++ (':' :: '/' :: '/' :: (host.data ++ ['/'])) := by
    rw [data_append, data_append, data_append]
    simp
  rw [hdata]
  dsimp only []
  have hw : (scheme.data ++ (':' :: '/' :: '/' :: (host.data ++ ['/']))).takeWhile isWordChar
      = scheme.data := by
    rw [takeWhile_append_of_all scheme.data _ h3]
    simp [List.takeWhile_cons, isWordChar]
  rw [hw]
  have hdrop : (scheme.data ++ (':' :: '/' :: '/' :: (host.data ++ ['/']))).drop
      scheme.data.length = ':' :: '/' :: '/' :: (host.data ++ ['/']) :=
    List.drop_left scheme.data _
  rw [hdrop]
  rw [if_pos ⟨h2, rfl⟩]
  have hhost : ((':' :: '/' :: '/' :: (host.data ++ ['/'])).drop 3).takeWhile
      (fun c => !isLineTerminator c) = host.data ++ ['/'] := by
    show (host.data ++ ['/']).takeWhile (fun c => !isLineTerminator c) = host.data ++ ['/']
    refine takeWhile_all _ fun c hc => ?_
    rcases List.mem_append.mp hc with hc | hc
    · simp [h4 c hc]
    · simp at hc
      rw [hc]
      decide
  rw [hhost]
  have hmk : String.mk (host.data ++ ['/']) = host ++ "/" := by
    rw [← data_append]
  rw [hmk]

theorem stripTrailingSlash_concat (host : String) :
    stripTrailingSlash (host ++ "/") = host := by
  have hd : (host ++ "/").data = host.data ++ ['/'] := by
    rw [data_append]
  unfold stripTrailingSlash
  rw [hd, List.getLast?_concat, List.dropLast_concat]
  rfl

theorem jsOrString_empty_right (a : String) : jsOrString a "" = a := by
  unfold jsOrString
  split
  · rename_i h
    rw [h]
  · rfl

theorem ne_empty_of_data_ne_nil {s : String} (h : s.data ≠ []) : s ≠ "" := by
  intro he
  rw [he] at h
  exact h rfl

/-- Counterexample to C4 as stated: with scheme `http` and the (arbitrary)
host `a\nb`, JS `.` does not match the line feed, so the produced host is
`"a"`, not the claimed host-with-trailing-slash-stripped `"a\nb"`. -/
theorem c4_counterexample_newline_host :
    (createDSPipelineResourceSpec
          ⟨⟨true, []⟩, ⟨[⟨"AWS_S3_ENDPOINT", "http://a\nb/"⟩]⟩⟩ (none, ⟨"sec"⟩)).map
        (fun spec => spec.objectStorage.externalStorage.host) = .ok "a" ∧
      ("a" : String) ≠ "a\nb" :=
  ⟨rfl, by decide⟩

/-- C4 (amended): for every endpoint value of the form `scheme://host/` with
`scheme` a nonempty word and `host` free of line terminators (which JS `.`
cannot match), `createDSPipelineResourceSpec` yields `externalStorage.host`
equal to the host with the trailing slash stripped and `externalStorage.scheme`
equal to the scheme; for an endpoint with no scheme prefix the scheme defaults
to `https`; and the endpoint `s3.amazonaws.com/` with bucket `my-bucket` yields
host `s3.amazonaws.com`, scheme `https`, bucket `my-bucket` and region
`us-east-2`. -/
theorem c4_amended_endpoint_parsing :
    (∀ (config : PipelineServerConfigType) (resp : SecretsResponse) (scheme host : String),
        dataEntryToRecord config.objectStorage.newValue AwsKeys.S3_ENDPOINT
            = some (scheme ++ "://" ++ (host ++ "/")) →
        scheme.data ≠ [] →
        (∀ c ∈ scheme.data, isWordChar c = true) →
        (∀ c ∈ host.data, isLineTerminator c = false) →
        ∃ spec, createDSPipelineResourceSpec config resp = .ok spec ∧
          spec.objectStorage.externalStorage.host = host ∧
          spec.objectStorage.externalStorage.scheme = scheme) ∧
    (∀ (config : PipelineServerConfigType) (resp : SecretsResponse) (s : String),
        dataEntryToRecord config.objectStorage.newValue AwsKeys.S3_ENDPOINT = some s →
        (matchEndpoint s).1 = none →
        ∃ spec, createDSPipelineResourceSpec config resp = .ok spec ∧
          spec.objectStorage.externalStorage.scheme = "https") ∧
    ((createDSPipelineResourceSpec
        ⟨⟨true, []⟩, ⟨[⟨"AWS_S3_ENDPOINT", "s3.amazonaws.com/"⟩, ⟨"AWS_S3_BUCKET", "my-bucket"⟩]⟩⟩
        (none, ⟨"sec"⟩)).map
      (fun spec =>
        (spec.objectStorage.externalStorage.host, spec.objectStorage.externalStorage.scheme,
         spec.objectStorage.externalStorage.bucket, spec.objectStorage.externalStorage.region))
      = .ok ("s3.amazonaws.com", "https", "my-bucket", "us-east-2")) := by
  refine ⟨?_, ?_, rfl⟩
  · intro config resp scheme host h1 h2 h3 h4
    unfold createDSPipelineResourceSpec
    dsimp only []
    rw [h1]
    dsimp only [Option.map_some']
    rw [matchEndpoint_scheme_host scheme host h2 h3 h4]
    refine ⟨_, rfl, ?_, ?_⟩
    · dsimp only []
      rw [stripTrailingSlash_concat, jsOrString_empty_right]
    · dsimp only []
      unfold jsOrOptString
      unfold jsOrString
      simp only [Option.getD_some]
      rw [if_neg (ne_empty_of_data_ne_nil h2)]
  · intro config resp s h1 hm
    unfold createDSPipelineResourceSpec
    dsimp only []
    rw [h1]
    dsimp only [Option.map_some']
    have hpair : matchEndpoint s = (none, (matchEndpoint s).2) := by
      rw [← hm]
    rw [hpair]
    exact ⟨_, rfl, rfl⟩

/-- Witness for C4 (amended) at the endpoint `http://example.com/`. -/
theorem c4_amended_endpoint_parsing_witness :
    ∃ spec, createDSPipelineResourceSpec
        ⟨⟨true, []⟩, ⟨[⟨"AWS_S3_ENDPOINT", "http://example.com/"⟩]⟩⟩ (none, ⟨"sec"⟩) =
          .ok spec ∧
      spec.objectStorage.externalStorage.host = "example.com" ∧
      spec.objectStorage.externalStorage.scheme = "http" :=
  c4_amended_endpoint_parsing.1
    ⟨⟨true, []⟩, ⟨[⟨"AWS_S3_ENDPOINT", "http://example.com/"⟩]⟩⟩ (none, ⟨"sec"⟩)
    "http" "example.com" (by decide) (by decide) (by decide) (by decide)

/-! ### C7 -/

theorem createDatabaseSecret_not_useDefault (env : SecretsEnv)
    (databaseConfig : DatabaseConfig) (projectName : String) (dryRun : Bool)
    (h : databaseConfig.useDefault = false) :
    createDatabaseSecret env databaseConfig projectName dryRun =
      ((env.createSecret (databaseAssembledSecret databaseConfig projectName) dryRun).map
          fun secret => some ⟨ExternalDatabaseSecret.KEY, secret.metadata.name⟩,
       [⟨.db, databaseAssembledSecret databaseConfig projectName, dryRun⟩]) := by
  unfold createDatabaseSecret
  simp [h]

theorem createObjectStorageSecret_eq (env : SecretsEnv)
    (objectStorageConfig : ObjectStorageConfig) (projectName : String) (dryRun : Bool) :
    createObjectStorageSecret env objectStorageConfig projectName dryRun =
      ((env.createSecret (objectStorageAssembledSecret objectStorageConfig projectName)
          dryRun).map fun secret => ⟨secret.metadata.name⟩,
       [⟨.os, objectStorageAssembledSecret objectStorageConfig projectName, dryRun⟩]) := rfl

/-- C7: For every config with `useDefault = false` whose four creation calls
resolve, the database password is stored in the assembled secret under the
fixed key `ExternalDatabaseSecret.KEY`, a real (non-dry-run) database secret
creation call is issued, `createSecrets` resolves carrying that fixed key and
the created secret's `metadata.name`, and any spec assembled from that response
has `database.externalDB.passwordSecret` equal to exactly that key and name. -/
theorem c7_external_database_password_secret_reference (env : SecretsEnv)
    (sched1 sched2 : Bool) (config : PipelineServerConfigType) (projectName : String)
    (h : config.database.useDefault = false)
    (sDbDry sOsDry sDb sOs : K8sSecret)
    (hd : env.createSecret (databaseAssembledSecret config.database projectName) true
        = .ok sDbDry)
    (ho : env.createSecret (objectStorageAssembledSecret config.objectStorage projectName) true
        = .ok sOsDry)
    (hd2 : env.createSecret (databaseAssembledSecret config.database projectName) false
        = .ok sDb)
    (ho2 : env.createSecret (objectStorageAssembledSecret config.objectStorage projectName) false
        = .ok sOs) :
    (databaseAssembledSecret config.database projectName).data =
      [(ExternalDatabaseSecret.KEY,
        dataEntryToRecord config.database.value DatabaseConnectionKeys.PASSWORD)] ∧
    (⟨.db, databaseAssembledSecret config.database projectName, false⟩ : SecretCall) ∈
      (createSecrets env sched1 sched2 config projectName).2 ∧
    (createSecrets env sched1 sched2 config projectName).1 =
      .ok (some ⟨ExternalDatabaseSecret.KEY, sDb.metadata.name⟩, ⟨sOs.metadata.name⟩) ∧
    (∀ spec,
        createDSPipelineResourceSpec config
            (some ⟨ExternalDatabaseSecret.KEY, sDb.metadata.name⟩, ⟨sOs.metadata.name⟩) =
          .ok spec →
        ∃ db, spec.database = some db ∧
          db.externalDB.passwordSecret = ⟨ExternalDatabaseSecret.KEY, sDb.metadata.name⟩) := by
  refine ⟨rfl, ?_, ?_, ?_⟩
  · rw [createSecrets_eq,
      createDatabaseSecret_not_useDefault env config.database projectName true h,
      createDatabaseSecret_not_useDefault env config.database projectName false h,
      createObjectStorageSecret_eq, createObjectStorageSecret_eq, hd, ho, hd2, ho2]
    simp [promiseAll2, Except.map]
  · rw [createSecrets_eq,
      createDatabaseSecret_not_useDefault env config.database projectName true h,
      createDatabaseSecret_not_useDefault env config.database projectName false h,
      createObjectStorageSecret_eq, createObjectStorageSecret_eq, hd, ho, hd2, ho2]
    simp [promiseAll2, Except.map]
  · intro spec hspec
    unfold createDSPipelineResourceSpec at hspec
    dsimp only [] at hspec
    split at hspec
    · simp at hspec
    · injection hspec with h1
      rw [← h1]
      exact ⟨_, rfl, rfl⟩

/-- Witness for C7 at an environment naming dry-run and real responses
differently: the resolution carries the real name under the fixed key. -/
theorem c7_external_database_password_secret_reference_witness :
    (createSecrets ⟨fun _ d => .ok ⟨⟨if d then "dry" else "real"⟩⟩⟩ true true
        ⟨⟨false, [⟨"Password", "pw"⟩]⟩, ⟨[]⟩⟩ "proj").1 =
      .ok (some ⟨ExternalDatabaseSecret.KEY, "real"⟩, ⟨"real"⟩) :=
  (c7_external_database_password_secret_reference
      ⟨fun _ d => .ok ⟨⟨if d then "dry" else "real"⟩⟩⟩ true true
      ⟨⟨false, [⟨"Password", "pw"⟩]⟩, ⟨[]⟩⟩ "proj" rfl
      ⟨⟨"dry"⟩⟩ ⟨⟨"dry"⟩⟩ ⟨⟨"real"⟩⟩ ⟨⟨"real"⟩⟩ rfl rfl rfl rfl).2.2.1

/-! ### C8 -/

/-- C8: When the form's PVC size is `0` (or its culler timeout is below the
minimum), saving is blocked client-side: the save button is disabled, and the
save handler issues no `updateClusterSettings` call and leaves the stored
baseline settings unchanged. -/
theorem c8_invalid_settings_block_save (updateOutcome : Except JsError UpdateClusterSettingsResponse)
    (clusterSettings : ClusterSettingsType) (form : ClusterSettingsFormState)
    (h : form.pvcSize = 0 ∨ form.cullerTimeout < MIN_CULLER_TIMEOUT) :
    saveButtonDisabled clusterSettings form = true ∧
    handleSaveButtonClicked updateOutcome clusterSettings form = ([], clusterSettings) := by
  constructor
  · unfold saveButtonDisabled
    rcases h with h | h <;> simp [h]
  · unfold handleSaveButtonClicked
    dsimp only []
    by_cases hb : clusterSettings = newClusterSettings form
    · rw [if_pos hb]
    · rw [if_neg hb]
      have hcond : ¬((newClusterSettings form).pvcSize ≠ 0 ∧
          (newClusterSettings form).cullerTimeout ≥ MIN_CULLER_TIMEOUT) := by
        rintro ⟨h1, h2⟩
        rcases h with h | h
        · exact h1 h
        · have hct : (newClusterSettings form).cullerTimeout = form.cullerTimeout := rfl
          rw [hct] at h2
          omega
      rw [if_neg hcond]

/-- Witness for C8 at a changed form whose PVC size is `0`. -/
theorem c8_invalid_settings_block_save_witness :
    saveButtonDisabled ⟨10, 1000, false, ⟨false, ""⟩, ⟨false, false⟩⟩
        ⟨false, 0, 1000, false, ⟨false, "", none⟩, ⟨false, false⟩⟩ = true ∧
    handleSaveButtonClicked (.ok ⟨true, none⟩) ⟨10, 1000, false, ⟨false, ""⟩, ⟨false, false⟩⟩
        ⟨false, 0, 1000, false, ⟨false, "", none⟩, ⟨false, false⟩⟩ =
      ([], ⟨10, 1000, false, ⟨false, ""⟩, ⟨false, false⟩⟩) :=
  c8_invalid_settings_block_save (.ok ⟨true, none⟩)
    ⟨10, 1000, false, ⟨false, ""⟩, ⟨false, false⟩⟩
    ⟨false, 0, 1000, false, ⟨false, "", none⟩, ⟨false, false⟩⟩ (Or.inl rfl)

/-! ### C9 -/

/-- C9: Once the project request resolves, `createProject` calls the
namespace-labeling endpoint exactly once (no retry), resolves with the created
project's name only when the response carries `applied = true`, resolves with
that name whenever it does, and rejects with the admin-assistance error when
the `applied` flag is `false` or absent. -/
theorem c9_create_project_requires_applied_flag (env : ProjectsEnv)
    (username displayName description : String) (k8sName : Option String)
    (project : ProjectKind)
    (hc : env.k8sCreateProjectRequest
        (createProjectResource env displayName description k8sName) = .ok project) :
    ((createProject env username displayName description k8sName).2 =
        ["/api/namespaces/" ++ project.metadata.name ++ "/0"]) ∧
    (∀ s, (createProject env username displayName description k8sName).1 = .ok s →
        s = project.metadata.name ∧
        ∃ response, env.namespacesEndpoint project.metadata.name = .ok response ∧
          (response.data.bind fun d => d.applied).getD false = true) ∧
    (∀ response, env.namespacesEndpoint project.metadata.name = .ok response →
        (response.data.bind fun d => d.applied).getD false = true →
        (createProject env username displayName description k8sName).1 =
          .ok project.metadata.name) ∧
    (∀ response, env.namespacesEndpoint project.metadata.name = .ok response →
        (response.data.bind fun d => d.applied).getD false = false →
        (createProject env username displayName description k8sName).1 =
          .error (.error createProjectAdminMessage)) := by
  unfold createProject
  rw [hc]
  dsimp only []
  refine ⟨?_, ?_, ?_, ?_⟩
  · rcases hr : env.namespacesEndpoint project.metadata.name with e | response
    · rfl
    · dsimp only []
      split <;> rfl
  · intro s hs
    rcases hr : env.namespacesEndpoint project.metadata.name with e | response
    · rw [hr] at hs
      simp at hs
    · rw [hr] at hs
      dsimp only [] at hs
      by_cases ha : (response.data.bind fun d => d.applied).getD false = true
      · rw [if_pos ha] at hs
        injection hs with hs1
        exact ⟨hs1.symm, response, rfl, ha⟩
      · rw [if_neg ha] at hs
        simp at hs
  · intro response hr ha
    rw [hr]
    dsimp only []
    rw [if_pos ha]
  · intro response hr ha
    rw [hr]
    dsimp only []
    rw [if_neg (by rw [ha]; exact Bool.false_ne_true)]
    rfl

/-- Witness for C9 at an environment whose labeling endpoint reports
`applied = true`. -/
theorem c9_create_project_requires_applied_flag_witness :
    (createProject
        ⟨fun s => s,
         fun _ => .ok ⟨"project.openshift.io/v1", "Project",
           ⟨"proj", fun _ => none, fun _ => none, none⟩, none⟩,
         fun _ => .ok ⟨some ⟨some true⟩⟩,
         fun r => .ok r⟩
        "user" "My Project" "desc" none).1 = .ok "proj" :=
  (c9_create_project_requires_applied_flag
      ⟨fun s => s,
       fun _ => .ok ⟨"project.openshift.io/v1", "Project",
         ⟨"proj", fun _ => none, fun _ => none, none⟩, none⟩,
       fun _ => .ok ⟨some ⟨some true⟩⟩,
       fun r => .ok r⟩
      "user" "My Project" "desc" none
      ⟨"project.openshift.io/v1", "Project", ⟨"proj", fun _ => none, fun _ => none, none⟩, none⟩
      rfl).2.2.1 ⟨some ⟨some true⟩⟩ rfl rfl

/-! ### C10 -/

/-- C10: The resource `updateProject` submits differs from the input project
only in the `openshift.io/display-name` annotation (set to the trimmed display
name) and the `openshift.io/description` annotation (set to the description):
every other field, including all other metadata fields and all other
annotations, is carried over unchanged. -/
theorem c10_update_project_touches_only_two_annotations (env : ProjectsEnv)
    (p : ProjectKind) (displayName description : String) :
    ((updateProject env p displayName description).1.apiVersion = p.apiVersion) ∧
    ((updateProject env p displayName description).1.kind = p.kind) ∧
    ((updateProject env p displayName description).1.status = p.status) ∧
    ((updateProject env p displayName description).1.metadata.name = p.metadata.name) ∧
    ((updateProject env p displayName description).1.metadata.labels = p.metadata.labels) ∧
    ((updateProject env p displayName description).1.metadata.uid = p.metadata.uid) ∧
    ((updateProject env p displayName description).1.metadata.annotations
        "openshift.io/display-name" = some displayName.trim) ∧
    ((updateProject env p displayName description).1.metadata.annotations
        "openshift.io/description" = some description) ∧
    (∀ k, k ≠ "openshift.io/display-name" → k ≠ "openshift.io/description" →
        (updateProject env p displayName description).1.metadata.annotations k =
          p.metadata.annotations k) := by
  refine ⟨rfl, rfl, rfl, rfl, rfl, rfl, ?_, ?_, ?_⟩
  · show (if ("openshift.io/display-name" : String) = "openshift.io/description"
        then some description
        else if ("openshift.io/display-name" : String) = "openshift.io/display-name"
        then some displayName.trim
        else p.metadata.annotations "openshift.io/display-name") = some displayName.trim
    rw [if_neg (by decide), if_pos rfl]
  · show (if ("openshift.io/description" : String) = "openshift.io/description"
        then some description
        else if ("openshift.io/description" : String) = "openshift.io/display-name"
        then some displayName.trim
        else p.metadata.annotations "openshift.io/description") = some description
    rw [if_pos rfl]
  · intro k hk1 hk2
    show (if k = "openshift.io/description" then some description
        else if k = "openshift.io/display-name" then some displayName.trim
        else p.metadata.annotations k) = p.metadata.annotations k
    rw [if_neg hk2, if_neg hk1]

/-- Witness for C10: an untouched annotation key of a concrete project is
carried over unchanged. -/
theorem c10_update_project_touches_only_two_annotations_witness :
    (updateProject ⟨fun s => s, fun _ => .error .typeError, fun _ => .error .typeError,
          fun r => .ok r⟩
        ⟨"project.openshift.io/v1", "Project",
          ⟨"proj", fun _ => some "kept", fun _ => none, none⟩, none⟩
        "  My Project  " "a description").1.metadata.annotations "custom/key" =
      (⟨"project.openshift.io/v1", "Project",
          ⟨"proj", fun _ => some "kept", fun _ => none, none⟩, none⟩ :
        ProjectKind).metadata.annotations "custom/key" :=
  (c10_update_project_touches_only_two_annotations
      ⟨fun s => s, fun _ => .error .typeError, fun _ => .error .typeError, fun r => .ok r⟩
      ⟨"project.openshift.io/v1", "Project",
        ⟨"proj", fun _ => some "kept", fun _ => none, none⟩, none⟩
      "  My Project  " "a description").2.2.2.2.2.2.2.2 "custom/key"
    (by decide) (by decide)
